import Mathlib

namespace Kibosh

/-- Splits a character list at every occurrence of the separator, mirroring the
semantics of the Go standard library strings.Split for a one-character
separator, as used by installer.go lines 135 and 141. The second argument
accumulates the current field in reverse. -/
def splitCharsOn (sep : Char) : List Char → List Char → List (List Char)
  | [], acc => [acc.reverse]
  | c :: cs, acc =>
    if c = sep then acc.reverse :: splitCharsOn sep cs []
    else splitCharsOn sep cs (c :: acc)

/-- Go strings.Split(s, sep) for a one-character separator. -/
def goSplit (s : String) (sep : Char) : List String :=
  (splitCharsOn sep s.toList []).map String.mk

/-- The part of a character list before and after the first occurrence of the
separator, when the separator occurs at all. -/
def breakAt (sep : Char) : List Char → Option (List Char × List Char)
  | [] => none
  | c :: cs =>
    if c = sep then some ([], cs)
    else (breakAt sep cs).map (fun p => (c :: p.1, p.2))

/-- Modelled from the spec: semantic-version parsing and ordering are an
external collaborator (spec section 1: out of scope, treated as external
collaborators, semantic-version parsing). A parsed semantic version: numeric
major, minor and patch plus a possibly empty dot-separated prerelease. -/
structure SemVer where
  major : Nat
  minor : Nat
  patch : Nat
  pre : List String
deriving DecidableEq

/-- Numeric value of a list of decimal digit characters. -/
def digitsVal (ds : List Char) : Nat :=
  List.foldl (fun n c => n * 10 + (c.toNat - 48)) 0 ds

/-- A nonempty all-digit field. -/
def isNumField (l : List Char) : Bool :=
  !l.isEmpty && l.all Char.isDigit

/-- Characters allowed in prerelease and metadata identifiers. -/
def isIdentChar (c : Char) : Bool :=
  c.isDigit || c.isAlpha || c == '-'

/-- Dot-separated fields of a character list. -/
def dotFields (l : List Char) : List (List Char) :=
  splitCharsOn '.' l []

/-- Every dot-separated identifier is nonempty and uses allowed characters. -/
def validIdents (l : List Char) : Bool :=
  (dotFields l).all (fun p => !p.isEmpty && p.all isIdentChar)

/-- Drops one leading v if present. -/
def stripV : List Char → List Char
  | 'v' :: rest => rest
  | l => l

/-- Modelled from the spec: the numeric core of a semantic version, one to
three dot-separated digit fields, missing fields defaulting to zero. -/
def parseCore : List (List Char) → Option (Nat × Nat × Nat)
  | [a] => if isNumField a then some (digitsVal a, 0, 0) else none
  | [a, b] =>
    if isNumField a && isNumField b then some (digitsVal a, digitsVal b, 0)
    else none
  | [a, b, c] =>
    if isNumField a && isNumField b && isNumField c then
      some (digitsVal a, digitsVal b, digitsVal c)
    else none
  | _ => none

/-- Core and optional prerelease of a version string with metadata removed. -/
def parseMain (l : List Char) : Option SemVer :=
  match breakAt '-' l with
  | some (core, p) =>
    if validIdents p then
      match parseCore (dotFields core) with
      | some (ma, mi, pa) => some ⟨ma, mi, pa, (dotFields p).map String.mk⟩
      | none => none
    else none
  | none =>
    match parseCore (dotFields l) with
    | some (ma, mi, pa) => some ⟨ma, mi, pa, []⟩
    | none => none

/-- Modelled from the spec: parsing a string as a semantic version; an
optional leading v, a numeric core, an optional prerelease after the first
hyphen, an optional metadata part after the first plus sign (validated but
ignored for ordering); any other shape fails to parse. -/
def SemVer.parse (s : String) : Option SemVer :=
  match breakAt '+' (stripV s.toList) with
  | some (bm, m) => if validIdents m then parseMain bm else none
  | none => parseMain (stripV s.toList)

/-- Ordering on single prerelease identifiers: numeric identifiers compare
numerically and rank below alphanumeric ones, alphanumeric identifiers
compare lexically. -/
def identLt (a b : String) : Bool :=
  if isNumField a.toList then
    if isNumField b.toList then decide (digitsVal a.toList < digitsVal b.toList)
    else true
  else
    if isNumField b.toList then false
    else decide (a < b)

/-- Ordering on prerelease identifier lists: compare position by position, a
strict prefix ranks below the longer list. -/
def preLt : List String → List String → Bool
  | _, [] => false
  | [], _ :: _ => true
  | a :: as, b :: bs => if a = b then preLt as bs else identLt a b

/-- Modelled from the spec: strict semantic-version ordering (strictly
greater per semantic-version ordering): major, minor and patch compared
numerically; a release outranks any prerelease with the same numeric core;
prerelease lists compared identifier by identifier. -/
def SemVer.ltB (a b : SemVer) : Bool :=
  if a.major = b.major then
    if a.minor = b.minor then
      if a.patch = b.patch then
        match a.pre, b.pre with
        | [], _ => false
        | _ :: _, [] => true
        | p, q => preLt p q
      else decide (a.patch < b.patch)
    else decide (a.minor < b.minor)
  else decide (a.major < b.major)

/-- Models the expression on installer.go line 147, the call of the
collaborator MustParse on the new then the existing version string followed
by GreaterThan: none models the panic MustParse raises on a string that
fails to parse as a semantic version. -/
def mustCompare (newVersion existingVersion : String) : Option Bool :=
  match SemVer.parse newVersion, SemVer.parse existingVersion with
  | some nv, some ev => some (SemVer.ltB ev nv)
  | _, _ => none

/-- installer.go lines 134 to 147, isNewerVersion: split each image reference
on the colon, return true as soon as a split has fewer than two parts (the
existing reference is checked first), otherwise compare the parts at index 1
as versions; none models a MustParse panic. -/
def isNewerVersion (existingImage newImage : String) : Option Bool :=
  match goSplit existingImage ':' with
  | _ :: existingVersion :: _ =>
    (match goSplit newImage ':' with
     | _ :: newVersion :: _ => mustCompare newVersion existingVersion
     | _ => some true)
  | _ => some true

/-- The colon-delimited field at index 1 of an image reference: the version
string that installer.go lines 135 to 145 extract before comparing, and none
when the split has fewer than two parts. -/
def versionField (image : String) : Option String :=
  match goSplit image ':' with
  | _ :: v :: _ => some v
  | _ => none

/-- Error values: base errors and the wrapping done by errors.Wrap. -/
inductive Err
  | base (msg : String)
  | wrap (context : String) (inner : Err)
deriving DecidableEq

/-- The helm installer options filled on installer.go lines 80 to 84. -/
structure Options where
  nameSpace : String
  imageSpec : String
  serviceAccount : String
deriving DecidableEq

/-- A container of the fetched deployment, exposing its image reference. -/
structure Container where
  image : String
deriving DecidableEq

/-- The fetched deployment, flattened to the container list of its pod
template (the path Spec.Template.Spec.Containers on installer.go line 96). -/
structure Deployment where
  containers : List Container
deriving DecidableEq

/-- Result of the client.Install collaborator call on line 86: success, an
error recognised by apierrors.IsAlreadyExists, or any other error. -/
inductive InstallCallResult
  | success
  | alreadyExists
  | failed (e : Err)
deriving DecidableEq

/-- One Install() invocation with the collaborator responses fixed up front:
the package-level tillerTag, the registry configuration (its presence test
HasRegistryConfig and its Server host), the private-registry Setup() result,
the client.Install result, the cluster.GetDeployment result, the
client.Upgrade result, the outcome of each successive helmHealthy check
(ListReleases returning no error), and maxWait. -/
structure Env where
  tillerTag : String
  hasRegistryConfig : Bool
  registryServer : String
  setupResult : Option Err
  installResult : InstallCallResult
  getDeploymentResult : Except Err Deployment
  upgradeResult : Option Err
  healthy : Nat → Bool
  maxWait : Nat

/-- The collaborator calls one Install() invocation makes, plus total sleep
(the final value of the Go variable waited). -/
structure Trace where
  setupCalls : Nat
  installCalls : List Options
  getDeploymentCalls : Nat
  upgradeCalls : List Options
  healthChecks : Nat
  slept : Nat
deriving DecidableEq

/-- How Install() ends: returning nil, returning an error, panicking, or (an
artifact of the fuelled embedding only) running out of fuel. -/
inductive Outcome
  | ok
  | err (e : Err)
  | panicked (msg : String)
  | outOfFuel
deriving DecidableEq

/-- The resolved tiller image reference, installer.go lines 69 and 77: the
public default, or the registry server host when a registry configuration is
present. -/
def tillerImageOf (env : Env) : String :=
  if env.hasRegistryConfig then env.registryServer ++ "/tiller:" ++ env.tillerTag
  else "gcr.io/kubernetes-helm/tiller:" ++ env.tillerTag

/-- The options built on installer.go lines 80 to 84 from the constants
nameSpace and serviceAccount and the resolved image. -/
def optionsOf (env : Env) : Options :=
  { nameSpace := "kube-system",
    imageSpec := tillerImageOf env,
    serviceAccount := "tiller" }

/-- Trace after the install attempt of line 86 has been issued. -/
def baseTrace (env : Env) : Trace :=
  { setupCalls := if env.hasRegistryConfig then 1 else 0,
    installCalls := [optionsOf env],
    getDeploymentCalls := 0,
    upgradeCalls := [],
    healthChecks := 0,
    slept := 0 }

/-- Outcome of the polling loop in isolation. -/
inductive PollOutcome
  | healthy
  | deadline
  | fuelOut
deriving DecidableEq

/-- installer.go lines 110 to 121: check health; on success leave the loop;
otherwise fail once waited has reached maxWait, else sleep one slice of
maxWait / 10, add it to waited, and retry. Returns the outcome, the number
of health checks made and the total slept. The fuel argument is an artifact
of the embedding; the loop itself stops only on a healthy check or on
waited reaching maxWait. -/
def pollLoop (healthy : Nat → Bool) (maxWait : Nat) :
    Nat → Nat → Nat → PollOutcome × Nat × Nat
  | 0, checks, waited => (.fuelOut, checks, waited)
  | fuel + 1, checks, waited =>
    if healthy checks then (.healthy, checks + 1, waited)
    else if maxWait ≤ waited then (.deadline, checks + 1, waited)
    else pollLoop healthy maxWait fuel (checks + 1) (waited + maxWait / 10)

/-- The deadline error built on installer.go line 116. -/
def deadlineErr : Err := Err.base "Didn\x27t become healthy within max time"

/-- Runs the polling loop and records its checks and sleeps in the trace. -/
def runPoll (env : Env) (fuel : Nat) (t : Trace) : Outcome × Trace :=
  match pollLoop env.healthy env.maxWait fuel 0 0 with
  | (.healthy, c, w) => (.ok, { t with healthChecks := c, slept := w })
  | (.deadline, c, w) => (.err deadlineErr, { t with healthChecks := c, slept := w })
  | (.fuelOut, c, w) => (.outOfFuel, { t with healthChecks := c, slept := w })

/-- installer.go lines 103 to 106 followed by the fall-through to polling:
issue the upgrade; wrap a failure; on success poll. -/
def upgradeStep (env : Env) (fuel : Nat) (t : Trace) : Outcome × Trace :=
  match env.upgradeResult with
  | some e =>
    (.err (Err.wrap "Error upgrading helm" e),
     { t with upgradeCalls := t.upgradeCalls ++ [optionsOf env] })
  | none =>
    runPoll env fuel { t with upgradeCalls := t.upgradeCalls ++ [optionsOf env] }

/-- installer.go lines 92 to 106, the already-exists branch: fetch the
deployment (a failure is returned verbatim), read the image of container 0
(a panic when the container list is empty), return nil at once on a
byte-for-byte equal image, return nil at once when the new image is not
strictly newer, otherwise upgrade. -/
def alreadyExistsStep (env : Env) (fuel : Nat) : Outcome × Trace :=
  match env.getDeploymentResult with
  | .error e => (.err e, { baseTrace env with getDeploymentCalls := 1 })
  | .ok obj =>
    match obj.containers with
    | [] =>
      (.panicked "runtime error: index out of range",
       { baseTrace env with getDeploymentCalls := 1 })
    | c :: _ =>
      if c.image = tillerImageOf env then
        (.ok, { baseTrace env with getDeploymentCalls := 1 })
      else
        match isNewerVersion c.image (tillerImageOf env) with
        | none =>
          (.panicked "semver: MustParse", { baseTrace env with getDeploymentCalls := 1 })
        | some false => (.ok, { baseTrace env with getDeploymentCalls := 1 })
        | some true => upgradeStep env fuel { baseTrace env with getDeploymentCalls := 1 }

/-- installer.go lines 86 to 122 after image resolution: attempt the install,
then poll on success, wrap any failure other than already-exists, and enter
the already-exists branch otherwise. -/
def installCore (env : Env) (fuel : Nat) : Outcome × Trace :=
  match env.installResult with
  | .success => runPoll env fuel (baseTrace env)
  | .failed e => (.err (Err.wrap "Error installing new helm" e), baseTrace env)
  | .alreadyExists => alreadyExistsStep env fuel

/-- installer.go lines 66 to 123, Install(): when a registry configuration is
present run Setup() first and return its failure verbatim before any other
collaborator call; then resolve the image and continue with the install
attempt. -/
def install (env : Env) (fuel : Nat) : Outcome × Trace :=
  if env.hasRegistryConfig then
    match env.setupResult with
    | some e =>
      (.err e,
       { setupCalls := 1, installCalls := [], getDeploymentCalls := 0,
         upgradeCalls := [], healthChecks := 0, slept := 0 })
    | none => installCore env fuel
  else installCore env fuel

theorem install_eq_installCore (env : Env) (fuel : Nat)
    (hsetup : env.hasRegistryConfig = true → env.setupResult = none) :
    install env fuel = installCore env fuel := by
  unfold install
  by_cases hreg : env.hasRegistryConfig = true
  · rw [if_pos hreg, hsetup hreg]
  · rw [if_neg hreg]

theorem runPoll_preserves_calls (env : Env) (fuel : Nat) (t : Trace) :
    (runPoll env fuel t).2.upgradeCalls = t.upgradeCalls ∧
    (runPoll env fuel t).2.installCalls = t.installCalls := by
  unfold runPoll
  rcases hp : pollLoop env.healthy env.maxWait fuel 0 0 with ⟨o, c, w⟩
  cases o <;> simp [hp]

theorem upgradeStep_calls (env : Env) (fuel : Nat) (t : Trace) :
    (upgradeStep env fuel t).2.upgradeCalls = t.upgradeCalls ++ [optionsOf env] ∧
    (upgradeStep env fuel t).2.installCalls = t.installCalls := by
  unfold upgradeStep
  cases hu : env.upgradeResult with
  | some e => exact ⟨rfl, rfl⟩
  | none =>
    constructor
    · rw [(runPoll_preserves_calls env fuel _).1]
    · rw [(runPoll_preserves_calls env fuel _).2]

theorem alreadyExistsStep_installCalls (env : Env) (fuel : Nat) :
    (alreadyExistsStep env fuel).2.installCalls = [optionsOf env] := by
  unfold alreadyExistsStep
  split
  · rfl
  · split
    · rfl
    · split
      · rfl
      · split
        · rfl
        · rfl
        · rw [(upgradeStep_calls env fuel _).2]
          rfl

theorem installCore_installCalls (env : Env) (fuel : Nat) :
    (installCore env fuel).2.installCalls = [optionsOf env] := by
  unfold installCore
  cases hi : env.installResult with
  | success =>
    rw [(runPoll_preserves_calls env fuel _).2]
    rfl
  | failed e => rfl
  | alreadyExists => exact alreadyExistsStep_installCalls env fuel

theorem installCore_alreadyExists (env : Env) (fuel : Nat)
    (h : env.installResult = .alreadyExists) :
    installCore env fuel = alreadyExistsStep env fuel := by
  unfold installCore
  rw [h]

theorem alreadyExistsStep_skip (env : Env) (fuel : Nat) (d : Deployment)
    (c : Container) (cs : List Container)
    (hdep : env.getDeploymentResult = .ok d) (hcont : d.containers = c :: cs)
    (hskip : c.image = tillerImageOf env ∨
      isNewerVersion c.image (tillerImageOf env) = some false) :
    alreadyExistsStep env fuel = (.ok, { baseTrace env with getDeploymentCalls := 1 }) := by
  unfold alreadyExistsStep
  simp only [hdep, hcont]
  by_cases himg : c.image = tillerImageOf env
  · rw [if_pos himg]
  · rw [if_neg himg]
    rcases hskip with hskip | hskip
    · exact absurd hskip himg
    · rw [hskip]

theorem splitCharsOn_of_not_mem (sep : Char) :
    ∀ (l acc : List Char), sep ∉ l → splitCharsOn sep l acc = [acc.reverse ++ l]
  | [], acc, _ => by simp [splitCharsOn]
  | c :: cs, acc, h => by
    have hc : ¬ c = sep := by rintro rfl; exact h (List.mem_cons_self _ _)
    have hcs : sep ∉ cs := fun hm => h (List.mem_cons_of_mem _ hm)
    simp only [splitCharsOn, if_neg hc]
    rw [splitCharsOn_of_not_mem sep cs (c :: acc) hcs]
    simp

theorem splitCharsOn_append (sep : Char) :
    ∀ (a t acc : List Char), sep ∉ a →
      splitCharsOn sep (a ++ sep :: t) acc = (acc.reverse ++ a) :: splitCharsOn sep t []
  | [], t, acc, _ => by simp [splitCharsOn]
  | c :: cs, t, acc, h => by
    have hc : ¬ c = sep := by rintro rfl; exact h (List.mem_cons_self _ _)
    have hcs : sep ∉ cs := fun hm => h (List.mem_cons_of_mem _ hm)
    show splitCharsOn sep (c :: (cs ++ sep :: t)) acc =
      (acc.reverse ++ c :: cs) :: splitCharsOn sep t []
    simp only [splitCharsOn, if_neg hc]
    rw [splitCharsOn_append sep cs t (c :: acc) hcs]
    simp

theorem goSplit_two_colons (a b rest : String) (ha : ':' ∉ a.data) (hb : ':' ∉ b.data) :
    goSplit (a ++ ":" ++ b ++ ":" ++ rest) ':' =
      a :: b :: (splitCharsOn ':' rest.data []).map String.mk := by
  obtain ⟨la⟩ := a
  obtain ⟨lb⟩ := b
  obtain ⟨lr⟩ := rest
  have hdata : (String.mk la ++ ":" ++ String.mk lb ++ ":" ++ String.mk lr).toList =
      la ++ ':' :: (lb ++ ':' :: lr) := by
    show ((((la ++ [':']) ++ lb) ++ [':']) ++ lr) = la ++ ':' :: (lb ++ ':' :: lr)
    simp
  unfold goSplit
  rw [hdata, splitCharsOn_append ':' la (lb ++ ':' :: lr) [] ha,
    splitCharsOn_append ':' lb lr [] hb]
  simp

theorem isNewerVersion_versionField (e n : String) :
    isNewerVersion e n =
      (match versionField e with
       | none => some true
       | some ev =>
         (match versionField n with
          | none => some true
          | some nv => mustCompare nv ev)) := by
  unfold isNewerVersion versionField
  cases hgE : goSplit e ':' with
  | nil => rfl
  | cons x xs =>
    cases xs with
    | nil => rfl
    | cons ev t =>
      cases hgN : goSplit n ':' with
      | nil => rfl
      | cons y ys =>
        cases ys with
        | nil => rfl
        | cons nv u => rfl

theorem pollLoop_succ (healthy : Nat → Bool) (maxWait fuel checks waited : Nat) :
    pollLoop healthy maxWait (fuel + 1) checks waited =
      (if healthy checks then (.healthy, checks + 1, waited)
       else if maxWait ≤ waited then (.deadline, checks + 1, waited)
       else pollLoop healthy maxWait fuel (checks + 1) (waited + maxWait / 10)) := rfl

theorem pollLoop_all_unhealthy :
    ∀ (j : Nat), j ≤ 10 → ∀ (s c f : Nat),
      pollLoop (fun _ => false) (10 * (s + 1)) (f + j + 1) c ((10 - j) * (s + 1)) =
        (.deadline, c + j + 1, 10 * (s + 1))
  | 0, _, s, c, f => by
    simp only [Nat.sub_zero]
    rw [pollLoop_succ, if_neg (by simp), if_pos (le_refl _)]
  | j + 1, hj, s, c, f => by
    have hj' : j ≤ 10 := by omega
    have hpos : 0 < s + 1 := Nat.succ_pos s
    have hlt : (10 - (j + 1)) * (s + 1) < 10 * (s + 1) :=
      mul_lt_mul_of_pos_right (by omega) hpos
    have hdiv : 10 * (s + 1) / 10 = s + 1 := Nat.mul_div_cancel_left (s + 1) (by omega)
    have hstep : (10 - (j + 1)) * (s + 1) + (s + 1) = (10 - j) * (s + 1) := by
      have h1 : 10 - (j + 1) + 1 = 10 - j := by omega
      rw [← h1, Nat.succ_mul]
    have ih := pollLoop_all_unhealthy j hj' s (c + 1) f
    show pollLoop (fun _ => false) (10 * (s + 1)) ((f + j + 1) + 1) c
      ((10 - (j + 1)) * (s + 1)) = (.deadline, c + (j + 1) + 1, 10 * (s + 1))
    rw [pollLoop_succ, if_neg (by simp), if_neg (not_le.mpr hlt), hdiv, hstep, ih]
    simp only [Prod.mk.injEq]
    refine ⟨trivial, by omega, trivial⟩

theorem runPoll_deadline (env : Env) (fuel : Nat) (t : Trace) (c w : Nat)
    (h : pollLoop env.healthy env.maxWait fuel 0 0 = (.deadline, c, w)) :
    runPoll env fuel t = (.err deadlineErr, { t with healthChecks := c, slept := w }) := by
  unfold runPoll
  rw [h]

/-- C1 counterexample: the claim says that in the equal-image already-exists
path success is returned only after a successful health check; here the
health check can never succeed (ListReleases always fails), yet Install()
returns success having performed zero health checks. -/
theorem c1_counterexample :
    (install ⟨"1.0.0", false, "", none, .alreadyExists,
        .ok ⟨[⟨"gcr.io/kubernetes-helm/tiller:1.0.0"⟩]⟩, none, fun _ => false, 100⟩ 20).1 =
      .ok ∧
    (install ⟨"1.0.0", false, "", none, .alreadyExists,
        .ok ⟨[⟨"gcr.io/kubernetes-helm/tiller:1.0.0"⟩]⟩, none, fun _ => false, 100⟩
        20).2.healthChecks = 0 :=
  ⟨rfl, rfl⟩

/-- C1 (amended): when Install() hits the already-exists conflict and the
existing image reference is byte-for-byte equal to the resolved reference,
or the resolved reference is not strictly newer, the upgrade is skipped and
Install() returns success immediately: health polling is not reached, so no
health check at all is performed in these two paths. -/
theorem c1_skip_returns_without_polling (env : Env) (fuel : Nat)
    (hsetup : env.hasRegistryConfig = true → env.setupResult = none)
    (hinstall : env.installResult = .alreadyExists)
    (d : Deployment) (c : Container) (cs : List Container)
    (hdep : env.getDeploymentResult = .ok d) (hcont : d.containers = c :: cs)
    (hskip : c.image = tillerImageOf env ∨
      isNewerVersion c.image (tillerImageOf env) = some false) :
    (install env fuel).1 = .ok ∧
    (install env fuel).2.upgradeCalls = [] ∧
    (install env fuel).2.healthChecks = 0 := by
  rw [install_eq_installCore env fuel hsetup, installCore_alreadyExists env fuel hinstall,
    alreadyExistsStep_skip env fuel d c cs hdep hcont hskip]
  exact ⟨rfl, rfl, rfl⟩

/-- C1 witness: the amended theorem applied to a concrete equal-image
environment. -/
theorem c1_skip_returns_without_polling_witness :
    (install ⟨"1.0.0", false, "", none, .alreadyExists,
        .ok ⟨[⟨"gcr.io/kubernetes-helm/tiller:1.0.0"⟩]⟩, none, fun _ => false, 100⟩ 7).1 =
      .ok ∧
    (install ⟨"1.0.0", false, "", none, .alreadyExists,
        .ok ⟨[⟨"gcr.io/kubernetes-helm/tiller:1.0.0"⟩]⟩, none, fun _ => false, 100⟩
        7).2.upgradeCalls = [] ∧
    (install ⟨"1.0.0", false, "", none, .alreadyExists,
        .ok ⟨[⟨"gcr.io/kubernetes-helm/tiller:1.0.0"⟩]⟩, none, fun _ => false, 100⟩
        7).2.healthChecks = 0 :=
  c1_skip_returns_without_polling
    ⟨"1.0.0", false, "", none, .alreadyExists,
      .ok ⟨[⟨"gcr.io/kubernetes-helm/tiller:1.0.0"⟩]⟩, none, fun _ => false, 100⟩ 7
    (fun h => nomatch h) rfl
    ⟨[⟨"gcr.io/kubernetes-helm/tiller:1.0.0"⟩]⟩
    ⟨"gcr.io/kubernetes-helm/tiller:1.0.0"⟩ [] rfl rfl (Or.inl rfl)

/-- C2 counterexample: with maxWait 1000 and a health check that always
fails, the loop performs 11 health checks, not at most 10, before returning
the deadline error. -/
theorem c2_counterexample :
    (install ⟨"1.0.0", false, "", none, .success, .ok ⟨[]⟩, none,
        fun _ => false, 1000⟩ 30).1 = .err deadlineErr ∧
    (install ⟨"1.0.0", false, "", none, .success, .ok ⟨[]⟩, none,
        fun _ => false, 1000⟩ 30).2.healthChecks = 11 ∧
    ¬ (install ⟨"1.0.0", false, "", none, .success, .ok ⟨[]⟩, none,
        fun _ => false, 1000⟩ 30).2.healthChecks ≤ 10 :=
  ⟨rfl, rfl, by decide⟩

/-- C2 (amended): for every maxWait that is a positive multiple of 10 and a
health check that always fails, the polling loop of Install() performs
exactly 11 health checks and sleeps one slice of maxWait / 10 after each of
the first 10 failed checks, for a total block of exactly maxWait, before
returning the deadline-exceeded error. -/
theorem c2_deadline_eleven_checks (tag rs : String) (sr uo : Option Err)
    (gd : Except Err Deployment) (s f : Nat) :
    (install ⟨tag, false, rs, sr, .success, gd, uo, fun _ => false, 10 * (s + 1)⟩
      (f + 11)).1 = .err deadlineErr ∧
    (install ⟨tag, false, rs, sr, .success, gd, uo, fun _ => false, 10 * (s + 1)⟩
      (f + 11)).2.healthChecks = 11 ∧
    (install ⟨tag, false, rs, sr, .success, gd, uo, fun _ => false, 10 * (s + 1)⟩
      (f + 11)).2.slept = 10 * (s + 1) := by
  have h := pollLoop_all_unhealthy 10 (by omega) s 0 f
  simp only [Nat.sub_self, Nat.zero_mul] at h
  have hr := runPoll_deadline
    ⟨tag, false, rs, sr, .success, gd, uo, fun _ => false, 10 * (s + 1)⟩ (f + 11)
    (baseTrace ⟨tag, false, rs, sr, .success, gd, uo, fun _ => false, 10 * (s + 1)⟩)
    (0 + 10 + 1) (10 * (s + 1)) h
  refine ⟨?_, ?_, ?_⟩
  · show (runPoll ⟨tag, false, rs, sr, .success, gd, uo, fun _ => false, 10 * (s + 1)⟩
      (f + 11)
      (baseTrace ⟨tag, false, rs, sr, .success, gd, uo, fun _ => false,
        10 * (s + 1)⟩)).1 = .err deadlineErr
    rw [hr]
  · show (runPoll ⟨tag, false, rs, sr, .success, gd, uo, fun _ => false, 10 * (s + 1)⟩
      (f + 11)
      (baseTrace ⟨tag, false, rs, sr, .success, gd, uo, fun _ => false,
        10 * (s + 1)⟩)).2.healthChecks = 11
    rw [hr]
  · show (runPoll ⟨tag, false, rs, sr, .success, gd, uo, fun _ => false, 10 * (s + 1)⟩
      (f + 11)
      (baseTrace ⟨tag, false, rs, sr, .success, gd, uo, fun _ => false,
        10 * (s + 1)⟩)).2.slept = 10 * (s + 1)
    rw [hr]

/-- C3 counterexample: for the reference host:5000/tiller:1.0.0 the claim
says the compared version is 1.0.0, the substring after the final colon; the
code extracts the field after the first colon, 5000/tiller, and the
comparison against a well-formed reference panics instead of comparing
1.0.0. -/
theorem c3_counterexample :
    versionField "host:5000/tiller:1.0.0" ≠ some "1.0.0" ∧
    versionField "host:5000/tiller:1.0.0" = some "5000/tiller" ∧
    isNewerVersion "gcr.io/kubernetes-helm/tiller:0.9.0" "host:5000/tiller:1.0.0" = none :=
  ⟨by decide, by decide, by decide⟩

/-- C3 (amended): the version used in the install-or-upgrade comparison is
the second colon-delimited field of the reference, the substring between the
first and the second colon, not the one after the final colon: for any
reference of shape a:b:rest with a and b colon-free, the extracted version
is b, and isNewerVersion compares against b, not against the final field. -/
theorem c3_version_is_second_field (a b rest e : String)
    (ha : ':' ∉ a.data) (hb : ':' ∉ b.data) :
    versionField (a ++ ":" ++ b ++ ":" ++ rest) = some b ∧
    isNewerVersion e (a ++ ":" ++ b ++ ":" ++ rest) =
      (match versionField e with
       | none => some true
       | some ev => mustCompare b ev) := by
  have hg := goSplit_two_colons a b rest ha hb
  have hv : versionField (a ++ ":" ++ b ++ ":" ++ rest) = some b := by
    unfold versionField
    rw [hg]
  refine ⟨hv, ?_⟩
  rw [isNewerVersion_versionField, hv]

/-- C3 witness: the amended theorem applied to a registry reference with a
port, showing the extracted version is 5000/tiller. -/
theorem c3_version_is_second_field_witness :
    versionField ("host" ++ ":" ++ "5000/tiller" ++ ":" ++ "1.0.0") = some "5000/tiller" ∧
    isNewerVersion "gcr.io/kubernetes-helm/tiller:0.9.0"
        ("host" ++ ":" ++ "5000/tiller" ++ ":" ++ "1.0.0") =
      (match versionField "gcr.io/kubernetes-helm/tiller:0.9.0" with
       | none => some true
       | some ev => mustCompare "5000/tiller" ev) :=
  c3_version_is_second_field "host" "5000/tiller" "1.0.0"
    "gcr.io/kubernetes-helm/tiller:0.9.0" (by decide) (by decide)

/-- C4 counterexample: both references have an extracted version string, the
existing one, latest, fails to parse as a semantic version, and the
comparison panics (modelled as none) instead of returning normally with the
reference treated as newer. -/
theorem c4_counterexample :
    isNewerVersion "reg/tiller:latest" "reg/tiller:1.0.0" = none ∧
    ¬ isNewerVersion "reg/tiller:latest" "reg/tiller:1.0.0" = some true :=
  ⟨by decide, by decide⟩

/-- C4 (amended): the fail-open treat-as-newer policy applies exactly when a
reference has fewer than two colon-delimited parts (no extractable version
string); when both references have an extracted version string and either
fails to parse as a semantic version, the comparison panics (MustParse,
modelled as none) instead of returning normally. -/
theorem c4_parse_failure_behavior :
    (∀ e n, versionField e = none → isNewerVersion e n = some true) ∧
    (∀ e n ev, versionField e = some ev → versionField n = none →
      isNewerVersion e n = some true) ∧
    (∀ e n ev nv, versionField e = some ev → versionField n = some nv →
      (SemVer.parse nv = none ∨ SemVer.parse ev = none) →
      isNewerVersion e n = none) := by
  refine ⟨?_, ?_, ?_⟩
  · intro e n h
    rw [isNewerVersion_versionField, h]
  · intro e n ev he hn
    rw [isNewerVersion_versionField, he, hn]
  · intro e n ev nv he hn hp
    rw [isNewerVersion_versionField, he, hn]
    show mustCompare nv ev = none
    unfold mustCompare
    rcases hp with hp | hp
    · rw [hp]
    · rw [hp]
      cases SemVer.parse nv <;> rfl

/-- C4 witness: the amended theorem applied to concrete references for each
of the three cases. -/
theorem c4_parse_failure_behavior_witness :
    isNewerVersion "tiller" "x:1.0.0" = some true ∧
    isNewerVersion "a:1.0.0" "tiller" = some true ∧
    isNewerVersion "a:latest" "b:1.0.0" = none :=
  ⟨c4_parse_failure_behavior.1 "tiller" "x:1.0.0" rfl,
   c4_parse_failure_behavior.2.1 "a:1.0.0" "tiller" "1.0.0" rfl rfl,
   c4_parse_failure_behavior.2.2 "a:latest" "b:1.0.0" "latest" "1.0.0" rfl rfl
     (Or.inr rfl)⟩

/-- C5: no-downgrade: with the install attempt failing already-exists, the
existing tag 2.0.0 and the resolved tag 1.9.0, no upgrade call is issued and
Install() returns success, whatever the other collaborator responses. -/
theorem c5_no_downgrade (rs : String) (sr uo : Option Err) (h : Nat → Bool)
    (mw fuel : Nat) :
    (install ⟨"1.9.0", false, rs, sr, .alreadyExists,
        .ok ⟨[⟨"gcr.io/kubernetes-helm/tiller:2.0.0"⟩]⟩, uo, h, mw⟩ fuel).1 = .ok ∧
    (install ⟨"1.9.0", false, rs, sr, .alreadyExists,
        .ok ⟨[⟨"gcr.io/kubernetes-helm/tiller:2.0.0"⟩]⟩, uo, h, mw⟩
        fuel).2.upgradeCalls = [] :=
  ⟨rfl, rfl⟩

/-- C6: upgrade trigger: with the install attempt failing already-exists,
the existing tag 1.0.0 and the resolved tag 1.1.0, exactly one upgrade call
is issued and it carries the same options (namespace kube-system, service
account tiller, the newly resolved image reference) as the install
attempt. -/
theorem c6_upgrade_trigger (rs : String) (sr uo : Option Err) (h : Nat → Bool)
    (mw fuel : Nat) :
    (install ⟨"1.1.0", false, rs, sr, .alreadyExists,
        .ok ⟨[⟨"gcr.io/kubernetes-helm/tiller:1.0.0"⟩]⟩, uo, h, mw⟩
        fuel).2.upgradeCalls =
      [⟨"kube-system", "gcr.io/kubernetes-helm/tiller:1.1.0", "tiller"⟩] ∧
    (install ⟨"1.1.0", false, rs, sr, .alreadyExists,
        .ok ⟨[⟨"gcr.io/kubernetes-helm/tiller:1.0.0"⟩]⟩, uo, h, mw⟩
        fuel).2.installCalls =
      [⟨"kube-system", "gcr.io/kubernetes-helm/tiller:1.1.0", "tiller"⟩] := by
  constructor
  · show (upgradeStep ⟨"1.1.0", false, rs, sr, .alreadyExists,
        .ok ⟨[⟨"gcr.io/kubernetes-helm/tiller:1.0.0"⟩]⟩, uo, h, mw⟩ fuel
        { baseTrace ⟨"1.1.0", false, rs, sr, .alreadyExists,
            .ok ⟨[⟨"gcr.io/kubernetes-helm/tiller:1.0.0"⟩]⟩, uo, h, mw⟩ with
          getDeploymentCalls := 1 }).2.upgradeCalls = _
    rw [(upgradeStep_calls _ _ _).1]
    rfl
  · show (upgradeStep ⟨"1.1.0", false, rs, sr, .alreadyExists,
        .ok ⟨[⟨"gcr.io/kubernetes-helm/tiller:1.0.0"⟩]⟩, uo, h, mw⟩ fuel
        { baseTrace ⟨"1.1.0", false, rs, sr, .alreadyExists,
            .ok ⟨[⟨"gcr.io/kubernetes-helm/tiller:1.0.0"⟩]⟩, uo, h, mw⟩ with
          getDeploymentCalls := 1 }).2.installCalls = _
    rw [(upgradeStep_calls _ _ _).2]
    rfl

/-- C7: if the private-registry Setup() fails, Install() returns that error
verbatim (unwrapped) and makes no install, upgrade, deployment-fetch or
health-poll call and sleeps for no time at all; the only installer state,
maxWait, is never written by Install(). -/
theorem c7_setup_short_circuit (tag rs : String) (e : Err) (ir : InstallCallResult)
    (gd : Except Err Deployment) (uo : Option Err) (h : Nat → Bool) (mw fuel : Nat) :
    install ⟨tag, true, rs, some e, ir, gd, uo, h, mw⟩ fuel =
      (.err e, ⟨1, [], 0, [], 0, 0⟩) :=
  rfl

/-- C8: image resolution: on every Install() invocation the install attempt
carries, with no registry configuration, the image reference
gcr.io/kubernetes-helm/tiller:tag, and with a registry configuration whose
Setup() succeeds, the reference server/tiller:tag, the registry host
replacing the public default with the same tiller name and tag. -/
theorem c8_image_resolution :
    (∀ (tag rs : String) (sr uo : Option Err) (ir : InstallCallResult)
       (gd : Except Err Deployment) (h : Nat → Bool) (mw fuel : Nat),
      (install ⟨tag, false, rs, sr, ir, gd, uo, h, mw⟩ fuel).2.installCalls =
        [⟨"kube-system", "gcr.io/kubernetes-helm/tiller:" ++ tag, "tiller"⟩]) ∧
    (∀ (tag rs : String) (uo : Option Err) (ir : InstallCallResult)
       (gd : Except Err Deployment) (h : Nat → Bool) (mw fuel : Nat),
      (install ⟨tag, true, rs, none, ir, gd, uo, h, mw⟩ fuel).2.installCalls =
        [⟨"kube-system", rs ++ "/tiller:" ++ tag, "tiller"⟩]) := by
  constructor
  · intro tag rs sr uo ir gd h mw fuel
    rw [show install ⟨tag, false, rs, sr, ir, gd, uo, h, mw⟩ fuel =
        installCore ⟨tag, false, rs, sr, ir, gd, uo, h, mw⟩ fuel from rfl,
      installCore_installCalls]
    rfl
  · intro tag rs uo ir gd h mw fuel
    rw [show install ⟨tag, true, rs, none, ir, gd, uo, h, mw⟩ fuel =
        installCore ⟨tag, true, rs, none, ir, gd, uo, h, mw⟩ fuel from rfl,
      installCore_installCalls]
    rfl

/-- C9: error taxonomy of Install(): an install failure other than
already-exists is returned wrapped with the installing context; a
deployment-fetch failure is returned unwrapped; an upgrade failure is
returned wrapped with the upgrading context; each is terminal, with no
health check performed. -/
theorem c9_error_taxonomy :
    (∀ (tag rs : String) (sr uo : Option Err) (gd : Except Err Deployment)
       (h : Nat → Bool) (mw fuel : Nat) (e : Err),
      (install ⟨tag, false, rs, sr, .failed e, gd, uo, h, mw⟩ fuel).1 =
        .err (.wrap "Error installing new helm" e) ∧
      (install ⟨tag, false, rs, sr, .failed e, gd, uo, h, mw⟩ fuel).2.healthChecks = 0) ∧
    (∀ (tag rs : String) (sr uo : Option Err) (h : Nat → Bool) (mw fuel : Nat) (e : Err),
      (install ⟨tag, false, rs, sr, .alreadyExists, .error e, uo, h, mw⟩ fuel).1 =
        .err e ∧
      (install ⟨tag, false, rs, sr, .alreadyExists, .error e, uo, h, mw⟩
        fuel).2.healthChecks = 0) ∧
    (∀ (rs : String) (sr : Option Err) (h : Nat → Bool) (mw fuel : Nat) (e : Err),
      (install ⟨"1.1.0", false, rs, sr, .alreadyExists,
          .ok ⟨[⟨"gcr.io/kubernetes-helm/tiller:1.0.0"⟩]⟩, some e, h, mw⟩ fuel).1 =
        .err (.wrap "Error upgrading helm" e) ∧
      (install ⟨"1.1.0", false, rs, sr, .alreadyExists,
          .ok ⟨[⟨"gcr.io/kubernetes-helm/tiller:1.0.0"⟩]⟩, some e, h, mw⟩
          fuel).2.healthChecks = 0) :=
  ⟨fun _ _ _ _ _ _ _ _ _ => ⟨rfl, rfl⟩,
   fun _ _ _ _ _ _ _ _ => ⟨rfl, rfl⟩,
   fun _ _ _ _ _ _ => ⟨rfl, rfl⟩⟩

/-- C10: in the already-exists branch the first container of the fetched
deployment is read with no emptiness guard: for every fetched deployment
whose container list is empty, Install() panics with an index-out-of-range
runtime error rather than returning an error, with or without a registry
configuration. -/
theorem c10_empty_containers_panics :
    (∀ (tag rs : String) (sr uo : Option Err) (h : Nat → Bool) (mw fuel : Nat),
      (install ⟨tag, false, rs, sr, .alreadyExists, .ok ⟨[]⟩, uo, h, mw⟩ fuel).1 =
        .panicked "runtime error: index out of range") ∧
    (∀ (tag rs : String) (uo : Option Err) (h : Nat → Bool) (mw fuel : Nat),
      (install ⟨tag, true, rs, none, .alreadyExists, .ok ⟨[]⟩, uo, h, mw⟩ fuel).1 =
        .panicked "runtime error: index out of range") :=
  ⟨fun _ _ _ _ _ _ _ => rfl, fun _ _ _ _ _ _ => rfl⟩

end Kibosh
